import Mathlib

/-!
Verification of the decision layer of `src/classify.py` from the
ecosystem-monitoring repository: the Result Ranker (`classify_audio`),
the Alert Engine (`check_alerts`) and the Report Formatter
(`print_results`).

Modelling conventions:
* Python floats (classifier scores) are embedded as exact rationals `ℚ`;
  every score and threshold appearing in the spec and the claims is
  exactly representable, so comparisons agree with the source.
* A Python list of label/score dicts is a `List Prediction`.
* `print` calls are modelled by accumulating the printed strings in a
  list; `print_results` returns `none` where the Python code raises
  `IndexError` (`predictions[0]` on an empty list) and `some lines`
  otherwise.
* `sorted(preds, key=score, reverse=True)` is a stable
  descending sort; it is embedded as `List.mergeSort` with the boolean
  comparison `b.score ≤ a.score`, which is the same stable sort.
-/

/-- One classifier prediction: a species label and a confidence score.
Mirrors the Python dict with a label field and a score field. -/
structure Prediction where
  label : String
  score : ℚ
  deriving Repr, DecidableEq

/-- Source line 18: `LOW_CONFIDENCE_THRESHOLD = 0.5`. -/
def LOW_CONFIDENCE_THRESHOLD : ℚ := 1/2

/-- Source line 19: `UNKNOWN_SOUND_THRESHOLD = 0.3`. -/
def UNKNOWN_SOUND_THRESHOLD : ℚ := 3/10

/-- Source lines 22-27: the `RARE_SPECIES` registry list. -/
def RARE_SPECIES : List String :=
  ["spotted owl", "california condor", "whooping crane", "ivory-billed woodpecker"]

/-- The rare-species alert message appended by `check_alerts`. -/
def RARE_MSG : String := "🦉 RARE_SPECIES: Обнаружен редкий вид!"

/-- The low-confidence alert message appended by `check_alerts`. -/
def LOW_MSG : String := "⚠️ LOW_CONFIDENCE: Модель не уверена в результате"

/-- The unknown-sound alert message appended by `check_alerts`. -/
def UNKNOWN_MSG : String := "❓ UNKNOWN_SOUND: Возможно неизвестный вид или шум"

/-- The Python method str.lower applied characterwise (all registry
entries and labels in the spec are ASCII, where `Char.toLower` agrees
with the Python case folding). -/
def toLowerStr (s : String) : String := ⟨s.data.map Char.toLower⟩

/-- Boolean comparison used by the ranking step: the Python
`sorted(..., key=score, reverse=True)` orders by
descending score, keeping the original order on ties. -/
def scoreDescLE (a b : Prediction) : Bool := decide (b.score ≤ a.score)

/-- Source lines 57-62, `classify_audio(file_path, classifier)`:
calls the classifier on the file and returns its predictions sorted by
descending score with a stable sort. -/
def classify_audio (file_path : String) (classifier : String → List Prediction) :
    List Prediction :=
  (classifier file_path).mergeSort scoreDescLE

/-- Source lines 65-81, `check_alerts(pred_label, pred_score)`: builds
the alert list by appending, in this fixed order, the rare-species
message (if the lower-cased label occurs in the lower-cased registry),
the low-confidence message (if `score < LOW_CONFIDENCE_THRESHOLD`) and
the unknown-sound message (if `score < UNKNOWN_SOUND_THRESHOLD`). -/
def check_alerts (pred_label : String) (pred_score : ℚ) : List String :=
  (if (RARE_SPECIES.map toLowerStr).contains (toLowerStr pred_label)
   then [RARE_MSG] else [])
  ++ (if pred_score < LOW_CONFIDENCE_THRESHOLD then [LOW_MSG] else [])
  ++ (if pred_score < UNKNOWN_SOUND_THRESHOLD then [UNKNOWN_MSG] else [])

/-- Round a rational to the nearest integer, ties to even — the rounding
used when Python formats a value with a fixed number of decimals. -/
def roundHalfEven (q : ℚ) : ℤ :=
  if q - ⌊q⌋ < 1/2 then ⌊q⌋
  else if 1/2 < q - ⌊q⌋ then ⌊q⌋ + 1
  else if ⌊q⌋ % 2 = 0 then ⌊q⌋ else ⌊q⌋ + 1

/-- The Python format spec .1 percent applied to the score: the score
times 100, rendered with one decimal digit and a trailing percent
sign. -/
def fmtPercent (q : ℚ) : String :=
  let t : ℤ := roundHalfEven (q * 1000)
  toString (t / 10) ++ "." ++ toString (t % 10) ++ "%"

/-- The line `"=" * 50` printed by `print_results`. -/
def eqSep : String := String.mk (List.replicate 50 '=')

/-- The line `"-" * 30` printed by `print_results`. -/
def dashSep : String := String.mk (List.replicate 30 '-')

/-- One line of the ranked top-N list: two spaces, the rank, a dot, the
label, and the percent-formatted score in parentheses. -/
def rankedLine (i : Nat) (p : Prediction) : String :=
  "  " ++ toString i ++ ". " ++ p.label ++ " (" ++ fmtPercent p.score ++ ")"

/-- The loop `for i, pred in enumerate(predictions[:top_n], 1)`:
numbered ranked lines starting at index `i`. -/
def rankedLines (i : Nat) : List Prediction → List String
  | [] => []
  | p :: ps => rankedLine i p :: rankedLines (i + 1) ps

/-- The alert block of the report: nothing when no alert fired,
otherwise a separator, a header and one indented line per alert. -/
def alertBlock (alerts : List String) : List String :=
  if alerts.isEmpty then []
  else ("\n" ++ dashSep) :: "ОПОВЕЩЕНИЯ:" :: alerts.map (fun a => "  " ++ a)

/-- Source lines 84-109, `print_results(predictions, top_n=3)`: the
sequence of printed lines, or `none` when `predictions[0]` raises
`IndexError` on an empty list. -/
def print_results (predictions : List Prediction) (top_n : Nat) :
    Option (List String) :=
  match predictions with
  | [] => none
  | top1 :: _ =>
    some (("\n" ++ eqSep) :: "РЕЗУЛЬТАТЫ КЛАССИФИКАЦИИ" :: eqSep ::
      ("\n🐦 Вид: " ++ top1.label) ::
      ("📊 Уверенность: " ++ fmtPercent top1.score) ::
      (alertBlock (check_alerts top1.label top1.score)
        ++ ("\n" ++ dashSep)
          :: ("Топ-" ++ toString top_n ++ " предсказания:")
          :: rankedLines 1 (predictions.take top_n)
        ++ [eqSep]))

/-- The printed lines of a report, with `[]` for the failing empty case;
convenience accessor over `print_results`. -/
def reportLines (predictions : List Prediction) (top_n : Nat) : List String :=
  (print_results predictions top_n).getD []

/-- The pipeline tail of `main` (source lines 149-152): rank the
predictions of the classifier, then render the report with the default
`top_n = 3`. -/
def run_pipeline (file_path : String) (classifier : String → List Prediction) :
    Option (List String) :=
  print_results (classify_audio file_path classifier) 3

/-- The output of the Ranker is sorted non-increasing by score. -/
def SortedDescByScore (l : List Prediction) : Prop :=
  l.Pairwise fun a b => b.score ≤ a.score

/-- Stability of the Ranker: any two predictions with equal scores that
occur in this order in `l` occur in the same order in `l'`. -/
def PreservesEqualScoreOrder (l l' : List Prediction) : Prop :=
  ∀ a b : Prediction, a.score = b.score → [a, b].Sublist l → [a, b].Sublist l'

/-- A classifier stub returning three predictions with a tie, used to
exercise the Ranker theorems at a concrete input. -/
def wCls : String → List Prediction :=
  fun _ => [⟨"a", 3/4⟩, ⟨"b", 1/2⟩, ⟨"c", 1/2⟩]

/-- A concrete two-element ranked list used to exercise the Formatter
theorems. -/
def wPs : List Prediction :=
  [⟨"American Robin", 82/100⟩, ⟨"House Sparrow", 1/2⟩]

/-- A classifier stub returning zero predictions, violating the
Classifier Interface contract. -/
def emptyCls : String → List Prediction := fun _ => []

/-- Rounding a rational that is already an integer is the identity. -/
theorem roundHalfEven_intCast (n : ℤ) : roundHalfEven (n : ℚ) = n := by
  simp [roundHalfEven]

/-- Evaluation of the percent format when `q * 1000` is an integer. -/
theorem fmtPercent_eq_of_mul (q : ℚ) (n : ℤ) (h : q * 1000 = (n : ℚ)) :
    fmtPercent q = toString (n / 10) ++ "." ++ toString (n % 10) ++ "%" := by
  rw [fmtPercent, h, roundHalfEven_intCast]

theorem fmtPercent_half : fmtPercent (1/2) = "50.0%" := by
  rw [fmtPercent_eq_of_mul (1/2) 500 (by norm_num)]
  decide

theorem fmtPercent_82 : fmtPercent (82/100) = "82.0%" := by
  rw [fmtPercent_eq_of_mul (82/100) 820 (by norm_num)]
  decide

/-- The three alert messages are pairwise distinct strings. -/
theorem rare_ne_low : RARE_MSG ≠ LOW_MSG := by decide

theorem rare_ne_unknown : RARE_MSG ≠ UNKNOWN_MSG := by decide

theorem low_ne_unknown : LOW_MSG ≠ UNKNOWN_MSG := by decide

/-- The rare-species message is in the alert list exactly when the
lower-cased label occurs in the lower-cased registry. -/
theorem rare_mem_check_alerts (label : String) (score : ℚ) :
    RARE_MSG ∈ check_alerts label score
      ↔ (RARE_SPECIES.map toLowerStr).contains (toLowerStr label) = true := by
  by_cases hr : (RARE_SPECIES.map toLowerStr).contains (toLowerStr label) = true <;>
  by_cases hl : score < LOW_CONFIDENCE_THRESHOLD <;>
  by_cases hu : score < UNKNOWN_SOUND_THRESHOLD <;>
  simp [check_alerts, hr, hl, hu, rare_ne_low, rare_ne_unknown]

/-- The low-confidence message is in the alert list exactly when the
score is below the low-confidence threshold. -/
theorem low_mem_check_alerts (label : String) (score : ℚ) :
    LOW_MSG ∈ check_alerts label score ↔ score < LOW_CONFIDENCE_THRESHOLD := by
  by_cases hr : (RARE_SPECIES.map toLowerStr).contains (toLowerStr label) = true <;>
  by_cases hl : score < LOW_CONFIDENCE_THRESHOLD <;>
  by_cases hu : score < UNKNOWN_SOUND_THRESHOLD <;>
  simp [check_alerts, hr, hl, hu, rare_ne_low.symm, low_ne_unknown]

/-- The unknown-sound message is in the alert list exactly when the
score is below the unknown-sound threshold. -/
theorem unknown_mem_check_alerts (label : String) (score : ℚ) :
    UNKNOWN_MSG ∈ check_alerts label score ↔ score < UNKNOWN_SOUND_THRESHOLD := by
  by_cases hr : (RARE_SPECIES.map toLowerStr).contains (toLowerStr label) = true <;>
  by_cases hl : score < LOW_CONFIDENCE_THRESHOLD <;>
  by_cases hu : score < UNKNOWN_SOUND_THRESHOLD <;>
  simp [check_alerts, hr, hl, hu, rare_ne_unknown.symm, low_ne_unknown.symm]

/-- C3: for every top label, the RareSpecies alert fires iff the label,
case-folded, is exactly equal (whole string, not substring) to some
entry of the registry, case-folded; "Spotted Owl" fires and
"Spotted Owl Juvenile" does not. -/
theorem rare_species_alert_exact_match (label : String) (score : ℚ) :
    (RARE_MSG ∈ check_alerts label score
      ↔ ∃ s ∈ RARE_SPECIES, toLowerStr label = toLowerStr s)
    ∧ RARE_MSG ∈ check_alerts "Spotted Owl" score
    ∧ RARE_MSG ∉ check_alerts "Spotted Owl Juvenile" score := by
  refine ⟨?_, ?_, ?_⟩
  · rw [rare_mem_check_alerts]
    simp only [List.contains_iff_exists_mem_beq, List.mem_map, beq_iff_eq]
    constructor
    · rintro ⟨a, ⟨s, hs, rfl⟩, h⟩
      exact ⟨s, hs, h⟩
    · rintro ⟨s, hs, h⟩
      exact ⟨toLowerStr s, ⟨s, hs, rfl⟩, h⟩
  · rw [rare_mem_check_alerts]
    decide
  · rw [rare_mem_check_alerts]
    decide

/-- C4: for every top score, the LowConfidence alert fires iff
`score < 0.5`, with strict inequality: score exactly 0.5 does not fire
and 0.4999 fires. -/
theorem low_confidence_alert_strict (label : String) (score : ℚ) :
    (LOW_MSG ∈ check_alerts label score ↔ score < LOW_CONFIDENCE_THRESHOLD)
    ∧ LOW_CONFIDENCE_THRESHOLD = 1/2
    ∧ LOW_MSG ∉ check_alerts label (1/2)
    ∧ LOW_MSG ∈ check_alerts label (4999/10000) := by
  refine ⟨low_mem_check_alerts label score, rfl, ?_, ?_⟩
  · rw [low_mem_check_alerts]
    norm_num [LOW_CONFIDENCE_THRESHOLD]
  · rw [low_mem_check_alerts]
    norm_num [LOW_CONFIDENCE_THRESHOLD]

/-- C5: for every top score, the UnknownSound alert fires iff
`score < 0.3`, with strict inequality: score exactly 0.3 does not
fire. -/
theorem unknown_sound_alert_strict (label : String) (score : ℚ) :
    (UNKNOWN_MSG ∈ check_alerts label score ↔ score < UNKNOWN_SOUND_THRESHOLD)
    ∧ UNKNOWN_SOUND_THRESHOLD = 3/10
    ∧ UNKNOWN_MSG ∉ check_alerts label (3/10)
    ∧ UNKNOWN_MSG ∈ check_alerts label (2999/10000) := by
  refine ⟨unknown_mem_check_alerts label score, rfl, ?_, ?_⟩
  · rw [unknown_mem_check_alerts]
    norm_num [UNKNOWN_SOUND_THRESHOLD]
  · rw [unknown_mem_check_alerts]
    norm_num [UNKNOWN_SOUND_THRESHOLD]

/-- C6: for every score in [0,1], whenever the UnknownSound alert fires
the LowConfidence alert fires as well (layered severity). -/
theorem unknown_sound_implies_low_confidence (label : String) (score : ℚ)
    (h0 : 0 ≤ score) (h1 : score ≤ 1)
    (hu : UNKNOWN_MSG ∈ check_alerts label score) :
    LOW_MSG ∈ check_alerts label score := by
  rw [unknown_mem_check_alerts] at hu
  rw [low_mem_check_alerts]
  have : UNKNOWN_SOUND_THRESHOLD ≤ LOW_CONFIDENCE_THRESHOLD := by
    norm_num [UNKNOWN_SOUND_THRESHOLD, LOW_CONFIDENCE_THRESHOLD]
  linarith

/-- Witness for C6 at label "Falcon" and score 0.25. -/
theorem unknown_sound_implies_low_confidence_witness :
    LOW_MSG ∈ check_alerts "Falcon" (1/4) :=
  unknown_sound_implies_low_confidence "Falcon" (1/4) (by norm_num) (by norm_num)
    (by rw [unknown_mem_check_alerts]; norm_num [UNKNOWN_SOUND_THRESHOLD])

/-- A conditional singleton is a sublist of the plain singleton. -/
theorem ifList_sublist {α : Type} (c : Prop) [Decidable c] (a : α) :
    (if c then [a] else []).Sublist [a] := by
  split
  · exact List.Sublist.refl _
  · exact List.nil_sublist _

/-- The three alert messages are pairwise distinct as a list. -/
theorem alert_msgs_nodup : ([RARE_MSG, LOW_MSG, UNKNOWN_MSG] : List String).Nodup := by
  decide

/-- The alert list is always a sublist of the fixed ordered message
list. -/
theorem check_alerts_sublist (label : String) (score : ℚ) :
    (check_alerts label score).Sublist [RARE_MSG, LOW_MSG, UNKNOWN_MSG] :=
  ((ifList_sublist _ _).append (ifList_sublist _ _)).append (ifList_sublist _ _)

/-- The label "Unknown Noise" is not in the registry, even lower-cased. -/
theorem contains_unknown_noise :
    (RARE_SPECIES.map toLowerStr).contains (toLowerStr "Unknown Noise") = false := by
  decide

/-- Scenario evaluation: top prediction ("Unknown Noise", 0.25) produces
exactly the LowConfidence and UnknownSound alerts, in that order. -/
theorem check_alerts_unknown_noise :
    check_alerts "Unknown Noise" (1/4) = [LOW_MSG, UNKNOWN_MSG] := by
  norm_num [check_alerts, contains_unknown_noise, LOW_CONFIDENCE_THRESHOLD,
    UNKNOWN_SOUND_THRESHOLD]
  decide

/-- C7: for every (label, score), the fired alerts come in the fixed
order RareSpecies, LowConfidence, UnknownSound; each kind appears at
most once, at most three alerts fire, no alert suppresses another (each
fires exactly by its own rule), and ("Unknown Noise", 0.25) yields
exactly LowConfidence then UnknownSound. -/
theorem alert_engine_order_and_independence (label : String) (score : ℚ) :
    (check_alerts label score).Sublist [RARE_MSG, LOW_MSG, UNKNOWN_MSG]
    ∧ (check_alerts label score).length ≤ 3
    ∧ (∀ m : String, (check_alerts label score).count m ≤ 1)
    ∧ (RARE_MSG ∈ check_alerts label score
        ↔ (RARE_SPECIES.map toLowerStr).contains (toLowerStr label) = true)
    ∧ (LOW_MSG ∈ check_alerts label score ↔ score < LOW_CONFIDENCE_THRESHOLD)
    ∧ (UNKNOWN_MSG ∈ check_alerts label score ↔ score < UNKNOWN_SOUND_THRESHOLD)
    ∧ check_alerts "Unknown Noise" (1/4) = [LOW_MSG, UNKNOWN_MSG] := by
  have hsub := check_alerts_sublist label score
  refine ⟨hsub, ?_, ?_, rare_mem_check_alerts label score,
    low_mem_check_alerts label score, unknown_mem_check_alerts label score,
    check_alerts_unknown_noise⟩
  · simpa using hsub.length_le
  · exact List.nodup_iff_count_le_one.mp (hsub.nodup alert_msgs_nodup)

/-- The descending-score comparison is transitive. -/
theorem scoreDescLE_trans (a b c : Prediction) :
    scoreDescLE a b → scoreDescLE b c → scoreDescLE a c := by
  simp only [scoreDescLE, decide_eq_true_eq]
  exact fun hab hbc => le_trans hbc hab

/-- The descending-score comparison is total. -/
theorem scoreDescLE_total (a b : Prediction) :
    scoreDescLE a b || scoreDescLE b a := by
  simp only [scoreDescLE, Bool.or_eq_true, decide_eq_true_eq]
  exact (le_total b.score a.score)

/-- C2: for every non-empty prediction list, the Ranker output has the
same length as the input, is sorted non-increasing by score, and is
stable: two predictions with equal scores keep their input order. -/
theorem ranker_sorts_descending_stably (fp : String)
    (cls : String → List Prediction) (h : cls fp ≠ []) :
    (classify_audio fp cls).length = (cls fp).length
    ∧ SortedDescByScore (classify_audio fp cls)
    ∧ PreservesEqualScoreOrder (cls fp) (classify_audio fp cls) := by
  refine ⟨List.length_mergeSort _, ?_, ?_⟩
  · have hs := List.sorted_mergeSort scoreDescLE_trans scoreDescLE_total (cls fp)
    exact hs.imp fun hab => by simpa [scoreDescLE] using hab
  · intro a b hab hsub
    refine List.pair_sublist_mergeSort scoreDescLE_trans scoreDescLE_total ?_ hsub
    simp [scoreDescLE, hab]

/-- Witness for C2 on a concrete classifier output with a tie. -/
theorem ranker_sorts_descending_stably_witness :
    (classify_audio "rec.wav" wCls).length = (wCls "rec.wav").length
    ∧ SortedDescByScore (classify_audio "rec.wav" wCls)
    ∧ PreservesEqualScoreOrder (wCls "rec.wav") (classify_audio "rec.wav" wCls) :=
  ranker_sorts_descending_stably "rec.wav" wCls (by simp [wCls])

/-- Unfolding of the report lines for a non-empty prediction list. -/
theorem reportLines_cons (top1 : Prediction) (rest : List Prediction) (n : Nat) :
    reportLines (top1 :: rest) n =
      ("\n" ++ eqSep) :: "РЕЗУЛЬТАТЫ КЛАССИФИКАЦИИ" :: eqSep ::
      ("\n🐦 Вид: " ++ top1.label) ::
      ("📊 Уверенность: " ++ fmtPercent top1.score) ::
      (alertBlock (check_alerts top1.label top1.score)
        ++ ("\n" ++ dashSep)
          :: ("Топ-" ++ toString n ++ " предсказания:")
          :: rankedLines 1 ((top1 :: rest).take n)
        ++ [eqSep]) := rfl

/-- Each element of a list contributes its numbered line to
`rankedLines`. -/
theorem rankedLine_mem_rankedLines :
    ∀ (l : List Prediction) (k i : Nat) (hi : i < l.length),
      rankedLine (k + i) (l.get ⟨i, hi⟩) ∈ rankedLines k l
  | p :: ps, k, 0, _ => by simp [rankedLines]
  | p :: ps, k, i + 1, hi => by
    have ih := rankedLine_mem_rankedLines ps (k + 1) i
      (by simpa using Nat.lt_of_succ_lt_succ hi)
    simp only [rankedLines, List.mem_cons]
    right
    have harith : k + (i + 1) = k + 1 + i := by omega
    simpa [harith] using ih

/-- C8: the Formatter renders every score as a percentage with one digit
of precision, on the top-prediction line and on each ranked entry; a
score of 0.5 renders as "50.0%" and a score of 0.82 as "82.0%". -/
theorem formatter_renders_percent (ps : List Prediction) (h : ps ≠ []) (n : Nat) :
    (print_results ps n).isSome = true
    ∧ ("📊 Уверенность: " ++ fmtPercent (ps.head h).score) ∈ reportLines ps n
    ∧ (∀ i (hi : i < (ps.take n).length),
        rankedLine (i + 1) ((ps.take n).get ⟨i, hi⟩) ∈ reportLines ps n)
    ∧ fmtPercent (1/2) = "50.0%"
    ∧ fmtPercent (82/100) = "82.0%" := by
  obtain ⟨top1, rest, rfl⟩ := List.exists_cons_of_ne_nil h
  refine ⟨rfl, ?_, ?_, fmtPercent_half, fmtPercent_82⟩
  · rw [reportLines_cons]
    simp
  · intro i hi
    rw [reportLines_cons]
    have hm := rankedLine_mem_rankedLines ((top1 :: rest).take n) 1 i hi
    have harith : 1 + i = i + 1 := by omega
    rw [harith] at hm
    simp only [List.mem_cons, List.mem_append]
    tauto

/-- The two-element list used by the Formatter witnesses is non-empty. -/
theorem wPs_ne : wPs ≠ [] := by simp [wPs]

/-- Witness for C8 on a concrete two-element ranked list. -/
theorem formatter_renders_percent_witness :
    (print_results wPs 3).isSome = true
    ∧ ("📊 Уверенность: " ++ fmtPercent (wPs.head wPs_ne).score) ∈ reportLines wPs 3
    ∧ rankedLine (0 + 1) ((wPs.take 3).get ⟨0, by simp [wPs]⟩) ∈ reportLines wPs 3
    ∧ fmtPercent (1/2) = "50.0%"
    ∧ fmtPercent (82/100) = "82.0%" := by
  have h := formatter_renders_percent wPs wPs_ne 3
  exact ⟨h.1, h.2.1, h.2.2.1 0 (by simp [wPs]), h.2.2.2.1, h.2.2.2.2⟩

/-- The number of ranked lines equals the number of listed predictions. -/
theorem rankedLines_length (k : Nat) (l : List Prediction) :
    (rankedLines k l).length = l.length := by
  induction l generalizing k with
  | nil => simp [rankedLines]
  | cons p ps ih => simp [rankedLines, ih]

/-- C9: with a non-empty ranked list and `topN ≥ 1`, the Formatter
clamps the ranked section to the available count — it renders
`min topN (number of predictions)` numbered lines and no error
occurs. -/
theorem topn_clamps_to_available (ps : List Prediction) (n : Nat)
    (h : ps ≠ []) (hn : 1 ≤ n) :
    (print_results ps n).isSome = true
    ∧ (rankedLines 1 (ps.take n)).length = min n ps.length := by
  obtain ⟨top1, rest, rfl⟩ := List.exists_cons_of_ne_nil h
  exact ⟨rfl, by simp [rankedLines_length]⟩

/-- Witness for C9: `topN = 3` with only two predictions renders exactly
two ranked lines, with no error. -/
theorem topn_clamps_to_available_witness :
    (print_results wPs 3).isSome = true
    ∧ (rankedLines 1 (wPs.take 3)).length = 2 := by
  have h := topn_clamps_to_available wPs 3 wPs_ne (by norm_num)
  exact ⟨h.1, h.2.trans (by simp [wPs])⟩

/-- C10: `print_results` succeeds exactly on non-empty inputs — for
every non-empty list its first-element access is in bounds and a report
is produced, for the empty list it fails with an index error — and the
non-emptiness precondition is enforced nowhere earlier: a classifier
returning zero predictions passes an empty ranked list straight to the
Formatter. -/
theorem print_results_needs_nonempty (ps : List Prediction) (n : Nat)
    (fp : String) (cls : String → List Prediction) :
    ((print_results ps n).isSome = true ↔ ps ≠ [])
    ∧ (cls fp = [] → classify_audio fp cls = []
        ∧ print_results (classify_audio fp cls) n = none) := by
  constructor
  · cases ps <;> simp [print_results]
  · intro hempty
    have h1 : classify_audio fp cls = [] := by
      simp [classify_audio, hempty]
    exact ⟨h1, by rw [h1]; rfl⟩

/-- Witness for C10 at the empty list and an empty classifier. -/
theorem print_results_needs_nonempty_witness :
    ((print_results ([] : List Prediction) 3).isSome = true
      ↔ ([] : List Prediction) ≠ [])
    ∧ (classify_audio "audio.mp3" emptyCls = []
        ∧ print_results (classify_audio "audio.mp3" emptyCls) 3 = none) :=
  ⟨(print_results_needs_nonempty [] 3 "audio.mp3" emptyCls).1,
   (print_results_needs_nonempty [] 3 "audio.mp3" emptyCls).2 rfl⟩

/-- Counterexample to C1 as stated: on an empty PredictionSet the
ranking step of `classify_audio` raises nothing — the source defines no
`EmptyResultError` — and returns the empty list, which then reaches the
Formatter, where `print_results` fails with an index error on
`predictions[0]`. -/
theorem empty_predictions_counterexample :
    classify_audio "recording.mp3" emptyCls = []
    ∧ print_results (classify_audio "recording.mp3" emptyCls) 3 = none := by
  constructor
  · simp [classify_audio, emptyCls]
  · simp [classify_audio, emptyCls, print_results]

/-- C1 (amended): for every classifier that returns zero predictions,
the ranking step returns the empty list without raising any error, the
empty ranked result reaches the Formatter, and `print_results` fails
with an index error there, so no Report is produced. -/
theorem empty_predictions_flow (fp : String) (cls : String → List Prediction)
    (h : cls fp = []) :
    classify_audio fp cls = []
    ∧ run_pipeline fp cls = none := by
  have h1 : classify_audio fp cls = [] := by simp [classify_audio, h]
  exact ⟨h1, by rw [run_pipeline, h1]; rfl⟩

/-- Witness for the amended C1 at a concrete empty classifier. -/
theorem empty_predictions_flow_witness :
    classify_audio "a.wav" emptyCls = []
    ∧ run_pipeline "a.wav" emptyCls = none :=
  empty_predictions_flow "a.wav" emptyCls rfl
